import Mathlib

/-!
Shallow embedding of the LiMo Application-Manager client library
(src/src/limo-app-mgr-lib.c, with its headers clp-app-mgr-config.h,
clp-app-mgr.h and clp-app-mgr-lib.h): identity derivation and
registration (clp_app_mgr_init / clp_app_mgr_async_init), the launch
coordinator (clp_app_mgr_exec, clp_app_mgr_exec_application,
clp_app_mgr_exec_argv and the two helpers ClpAppMgrAppLaunchWithArgs /
ClpAppMgrAppLaunchWithArgv), the inbound dispatch filter (message_func)
and the messaging channel (clp_app_mgr_send_message).

Bus traffic is made explicit: every daemon method call and every signal the
library sends is recorded in the function result, and the dispatch filter
returns the list of callback invocations it performs.  External
collaborators (the daemon's reply, the registry's values, allocation and
connection successes) are supplied through environment records.
-/

namespace AppMgr

/-- NAME_SIZE from clp-app-mgr.h: the maximum size of an application's
name (256). -/
def NAME_SIZE : Nat := 256

/-- MAX_SIZE from clp-app-mgr.h: the size of the dbus_interface /
dbus_object / match-string buffers (256); g_strlcat truncates to it. -/
def MAX_SIZE : Nat := 256

/-- CLP_APP_MGR_DBUS_INTERFACE from clp-app-mgr-config.h. -/
def CLP_APP_MGR_DBUS_INTERFACE : String := "org.clp.appmanager"

/-- CLP_APP_MGR_DBUS_OBJECT from clp-app-mgr-config.h. -/
def CLP_APP_MGR_DBUS_OBJECT : String := "/org/clp/appmanager"

/-- CLP_WIN_MGR_DBUS_INTERFACE from clp-app-mgr-config.h (the Matchbox
window manager). -/
def CLP_WIN_MGR_DBUS_INTERFACE : String := "org.clp.matchboxwm"

/-- CLP_APP_MGR_DBUS_SIGNAL_STOP from clp-app-mgr-config.h. -/
def CLP_APP_MGR_DBUS_SIGNAL_STOP : String := "stop"

/-- CLP_APP_MGR_DBUS_SIGNAL_EXEC from clp-app-mgr-config.h. -/
def CLP_APP_MGR_DBUS_SIGNAL_EXEC : String := "exec"

/-- CLP_APP_MGR_DBUS_SIGNAL_MESSAGE from clp-app-mgr-config.h. -/
def CLP_APP_MGR_DBUS_SIGNAL_MESSAGE : String := "Message"

/-- CLP_APP_MGR_DBUS_SIGNAL_APPEXIT from clp-app-mgr-config.h. -/
def CLP_APP_MGR_DBUS_SIGNAL_APPEXIT : String := "AppExit"

/-- CLP_APP_MGR_DBUS_SIGNAL_ROTATE from clp-app-mgr-config.h. -/
def CLP_APP_MGR_DBUS_SIGNAL_ROTATE : String := "rotate"

/-- CLP_WIN_MGR_DBUS_SIGNAL_UA_GAINED from clp-app-mgr-config.h. -/
def CLP_WIN_MGR_DBUS_SIGNAL_UA_GAINED : String := "UserInteractionGained"

/-- CLP_WIN_MGR_DBUS_SIGNAL_UA_LOST from clp-app-mgr-config.h. -/
def CLP_WIN_MGR_DBUS_SIGNAL_UA_LOST : String := "UserInteractionLost"

/-- GCONF_APPS_DIR from clp-app-mgr-config.h: the registry directory for
per-application keys. -/
def GCONF_APPS_DIR : String := "/appmgr"

/-- CLP_APP_MGR_SUCCESS from the clp-app-mgr.h error enum. -/
def CLP_APP_MGR_SUCCESS : Int := 0

/-- CLP_APP_MGR_FAILURE from the clp-app-mgr.h error enum. -/
def CLP_APP_MGR_FAILURE : Int := -1

/-- CLP_APP_MGR_OUT_OF_MEMORY from the clp-app-mgr.h error enum (0xd0). -/
def CLP_APP_MGR_OUT_OF_MEMORY : Int := 0xd0

/-- CLP_APP_MGR_DBUS_CALL_FAIL from the clp-app-mgr.h error enum (0xd1). -/
def CLP_APP_MGR_DBUS_CALL_FAIL : Int := 0xd1

/-- Modelled from the spec: the LiMo AMS already-running error code, from
app-manager.h, which is not in the sources; behavior depends only on it
being distinct from 0, from the shutdown return -1, from the null-pointer
return -8, and from the internal transport error. -/
def APPMGR_ERROR_APP_ALREADY_RUNNING : Int := 19

/-- Modelled from the spec: the LiMo AMS internal transport error code,
from app-manager.h, which is not in the sources. -/
def APPMGR_ERROR_INTERNAL_TRANSPORT_ERROR : Int := 7

/-- The argument-joining delimiter: control byte 16 (delim[0] = 16). -/
def delim : String := "\x10"

/-- The condition tested by the CLP_APPMGR_PARAM_ERROR guards: the name is
non-NULL, nonempty, and at most NAME_SIZE bytes long.  The macro
(clp-app-mgr-config.h) only logs when the condition fails — it does not
return — so the guards have no control-flow effect and the functions below
carry no validity branch; the predicate is kept to state claims scoped to
valid names. -/
def validName (s : String) : Bool :=
  s ≠ "" && s.utf8ByteSize ≤ NAME_SIZE

/-- g_strlcat(dst, src, siz): appends src to dst truncating the result to
siz - 1 characters.  The C truncates at siz - 1 bytes; this model
truncates at siz - 1 characters, which coincides for single-byte
characters (every header constant is ASCII, as are D-Bus interface and
path names). -/
def g_strlcat (dst src : String) (siz : Nat) : String :=
  ⟨(dst.data ++ src.data).take (siz - 1)⟩

/-- Character-list worker for splitFirst: the prefix before the first
occurrence of c, and the rest when c occurs. -/
def splitCharsAt (c : Char) : List Char → List Char × Option (List Char)
  | [] => ([], none)
  | x :: xs =>
      if x = c then ([], some xs)
      else
        let r := splitCharsAt c xs
        (x :: r.1, r.2)

/-- g_strsplit(s, sep, 2) for a one-character separator: the part before
the first occurrence and the remainder (empty when the separator is
absent, in which case the C code sees a NULL second chunk; both make the
later concatenations append nothing). -/
def splitFirst (sep : Char) (s : String) : String × String :=
  match splitCharsAt sep s.data with
  | (a, none) => (⟨a⟩, "")
  | (a, some b) => (⟨a⟩, ⟨b⟩)

/-- A basic or container value read from / appended to a bus message. -/
inductive DBusValue where
  | u32 (n : Nat)
  | str (s : String)
  | strArr (ss : List String)
deriving DecidableEq

/-- An inbound bus message as seen by the dispatch filter. -/
structure InboundMessage where
  isSignal : Bool
  iface : String
  member : String
  body : List DBusValue
deriving DecidableEq

/-- dbus_message_is_signal: signal type with the given interface and
member. -/
def dbus_message_is_signal (msg : InboundMessage) (iface member : String) : Bool :=
  msg.isSignal && msg.iface == iface && msg.member == member

/-- A signal the library sent: object path, interface, member, and the
appended payload (a uint32 count followed by a string array). -/
structure SentSignal where
  objectPath : String
  iface : String
  member : String
  count : Nat
  strings : List String
deriving DecidableEq

/-- One app_launch_call method call issued to the AMS daemon: the target
application id and the delimiter-joined argument string (NULL is `none`). -/
structure DaemonLaunchCall where
  app_id : Int
  args : Option String
deriving DecidableEq

/-- Environment for a launch-coordinator call: registry state, daemon
reply, and the success of each fallible external step. -/
structure LaunchEnv where
  shutdown : Bool
  instIdPtrNull : Bool
  registryAppId : Int
  proxyOk : Bool
  callOk : Bool
  daemonInstId : Int
  daemonErrorCode : Int
  msgNewOk : Bool
  sendOk : Bool

/-- One delimiter-joining step: args = g_strconcat(args, delim, value). -/
def appendDelim (acc v : String) : String := acc ++ delim ++ v

/-- The argument string built by ClpAppMgrAppLaunchWithArgs: NULL when
there are no arguments, otherwise the first argument followed by
delim-prefixed copies of the rest. -/
def joinWithArgs : List String → Option String
  | [] => none
  | v :: rest => some (rest.foldl appendDelim v)

/-- The argument string built by ClpAppMgrAppLaunchWithArgv: starts from
the empty string and prefixes every argument (the first included) with
the delimiter. -/
def joinWithArgv (params : List String) : String :=
  params.foldl appendDelim ""

/-- Result of the two launch helpers: the returned LiMo error code, the
instance id written through the out-pointer (none if never written), and
the daemon calls issued. -/
structure LaunchCallResult where
  ret : Int
  inst_id : Option Int
  calls : List DaemonLaunchCall
deriving DecidableEq

/-- ClpAppMgrAppLaunchWithArgs: checks the registry shutdown flag, then
the out-pointer, joins the va-list arguments (first argument bare, the
rest delimiter-prefixed), and issues app_launch_call through the AMS
proxy. -/
def ClpAppMgrAppLaunchWithArgs (env : LaunchEnv) (app_id : Int)
    (params : List String) : LaunchCallResult :=
  if env.shutdown then ⟨-1, none, []⟩
  else if env.instIdPtrNull then ⟨-8, none, []⟩
  else
    let args := joinWithArgs params
    if env.proxyOk then
      if env.callOk then
        if env.daemonErrorCode = 0 then
          ⟨0, some env.daemonInstId, [⟨app_id, args⟩]⟩
        else
          ⟨env.daemonErrorCode, some env.daemonInstId, [⟨app_id, args⟩]⟩
      else ⟨APPMGR_ERROR_INTERNAL_TRANSPORT_ERROR, none, [⟨app_id, args⟩]⟩
    else ⟨APPMGR_ERROR_INTERNAL_TRANSPORT_ERROR, none, []⟩

/-- ClpAppMgrAppLaunchWithArgv: same structure as the va-list helper but
the argument string starts from "" and every argument is appended with a
leading delimiter. -/
def ClpAppMgrAppLaunchWithArgv (env : LaunchEnv) (app_id : Int)
    (params : List String) : LaunchCallResult :=
  if env.shutdown then ⟨-1, none, []⟩
  else if env.instIdPtrNull then ⟨-8, none, []⟩
  else
    let args := some (joinWithArgv params)
    if env.proxyOk then
      if env.callOk then
        if env.daemonErrorCode = 0 then
          ⟨0, some env.daemonInstId, [⟨app_id, args⟩]⟩
        else
          ⟨env.daemonErrorCode, some env.daemonInstId, [⟨app_id, args⟩]⟩
      else ⟨APPMGR_ERROR_INTERNAL_TRANSPORT_ERROR, none, [⟨app_id, args⟩]⟩
    else ⟨APPMGR_ERROR_INTERNAL_TRANSPORT_ERROR, none, []⟩

/-- Result of an outer launch call: the CLP return code, the signals sent,
and the daemon calls issued. -/
structure ExecResult where
  ret : Int
  signals : List SentSignal
  calls : List DaemonLaunchCall
deriving DecidableEq

/-- clp_app_mgr_exec: resolves the app id from the registry, runs
ClpAppMgrAppLaunchWithArgs, and on APP_ALREADY_RUNNING forwards the
arguments as one exec signal whose payload counts the target name plus
the arguments (no_of_params starts at 1) and whose string array is the
target name followed by the arguments (addresses built by g_strconcat,
untruncated). -/
def clp_app_mgr_exec (env : LaunchEnv) (application : String)
    (args : List String) : ExecResult :=
  let app_id := env.registryAppId
  let r := ClpAppMgrAppLaunchWithArgs env app_id args
  if r.ret = APPMGR_ERROR_APP_ALREADY_RUNNING then
    let app_interface := CLP_APP_MGR_DBUS_INTERFACE ++ "." ++ application
    let app_objectpath := CLP_APP_MGR_DBUS_OBJECT ++ "/" ++ application
    if env.msgNewOk then
      if env.sendOk then
        ⟨CLP_APP_MGR_SUCCESS,
          [⟨app_objectpath, app_interface, CLP_APP_MGR_DBUS_SIGNAL_EXEC,
            1 + args.length, application :: args⟩], r.calls⟩
      else ⟨CLP_APP_MGR_OUT_OF_MEMORY, [], r.calls⟩
    else ⟨CLP_APP_MGR_DBUS_CALL_FAIL, [], r.calls⟩
  else if r.ret ≠ 0 ∨ r.inst_id.getD 0 ≤ 0 then
    ⟨CLP_APP_MGR_FAILURE, [], r.calls⟩
  else ⟨CLP_APP_MGR_SUCCESS, [], r.calls⟩

/-- clp_app_mgr_exec_application: the pre-built va_list variant; apart
from how the C collects the arguments its body is identical to
clp_app_mgr_exec. -/
def clp_app_mgr_exec_application (env : LaunchEnv) (application : String)
    (args : List String) : ExecResult :=
  let app_id := env.registryAppId
  let r := ClpAppMgrAppLaunchWithArgs env app_id args
  if r.ret = APPMGR_ERROR_APP_ALREADY_RUNNING then
    let app_interface := CLP_APP_MGR_DBUS_INTERFACE ++ "." ++ application
    let app_objectpath := CLP_APP_MGR_DBUS_OBJECT ++ "/" ++ application
    if env.msgNewOk then
      if env.sendOk then
        ⟨CLP_APP_MGR_SUCCESS,
          [⟨app_objectpath, app_interface, CLP_APP_MGR_DBUS_SIGNAL_EXEC,
            1 + args.length, application :: args⟩], r.calls⟩
      else ⟨CLP_APP_MGR_OUT_OF_MEMORY, [], r.calls⟩
    else ⟨CLP_APP_MGR_DBUS_CALL_FAIL, [], r.calls⟩
  else if r.ret ≠ 0 ∨ r.inst_id.getD 0 ≤ 0 then
    ⟨CLP_APP_MGR_FAILURE, [], r.calls⟩
  else ⟨CLP_APP_MGR_SUCCESS, [], r.calls⟩

/-- clp_app_mgr_exec_argv: the argc/argv variant; uses
ClpAppMgrAppLaunchWithArgv, and on APP_ALREADY_RUNNING builds the same
signal payload (no_of_params is incremented to argc+1 before being
appended, and the target name is appended as the first array element). -/
def clp_app_mgr_exec_argv (env : LaunchEnv) (application : String)
    (params_list : List String) : ExecResult :=
  let app_id := env.registryAppId
  let r := ClpAppMgrAppLaunchWithArgv env app_id params_list
  if r.ret = APPMGR_ERROR_APP_ALREADY_RUNNING then
    let app_interface := CLP_APP_MGR_DBUS_INTERFACE ++ "." ++ application
    let app_objectpath := CLP_APP_MGR_DBUS_OBJECT ++ "/" ++ application
    if env.msgNewOk then
      if env.sendOk then
        ⟨CLP_APP_MGR_SUCCESS,
          [⟨app_objectpath, app_interface, CLP_APP_MGR_DBUS_SIGNAL_EXEC,
            params_list.length + 1, application :: params_list⟩], r.calls⟩
      else ⟨CLP_APP_MGR_OUT_OF_MEMORY, [], r.calls⟩
    else ⟨CLP_APP_MGR_DBUS_CALL_FAIL, [], r.calls⟩
  else if r.ret ≠ 0 ∨ r.inst_id.getD 0 ≤ 0 then
    ⟨CLP_APP_MGR_FAILURE, [], r.calls⟩
  else ⟨CLP_APP_MGR_SUCCESS, [], r.calls⟩

/-- Environment for a messaging-channel call. -/
structure MessageEnv where
  msgNewOk : Bool

/-- clp_app_mgr_send_message: splits the target instance name at the first
colon to rebuild the target's derived interface and object path by
g_strconcat (base + separator + name + instance id, with nothing appended
when there is no colon, untruncated), and sends one Message signal whose
count is one plus the number of message strings and whose string array is
the full target instance name followed by the message strings. -/
def clp_app_mgr_send_message (env : MessageEnv) (application : String)
    (msgs : List String) : Int × List SentSignal :=
  let sp := splitFirst (Char.ofNat 58) application
  let dbusinterface := CLP_APP_MGR_DBUS_INTERFACE ++ "." ++ sp.1 ++ sp.2
  let dbusobject := CLP_APP_MGR_DBUS_OBJECT ++ "/" ++ sp.1 ++ sp.2
  if env.msgNewOk then
    (CLP_APP_MGR_SUCCESS,
      [⟨dbusobject, dbusinterface, CLP_APP_MGR_DBUS_SIGNAL_MESSAGE,
        1 + msgs.length, application :: msgs⟩])
  else (CLP_APP_MGR_DBUS_CALL_FAIL, [])

/-- One callback invocation performed by the dispatch filter, with the
arguments it was given. -/
inductive CallbackEvent where
  | stop
  | execCb (count : Nat) (params : List String)
  | focusGained
  | focusLost
  | death (pid : Nat)
  | messageCb (count : Nat) (params : List String)
deriving DecidableEq

/-- DBusHandlerResult values returned by the filter. -/
inductive HandlerResult where
  | handled
  | notYetHandled
deriving DecidableEq

/-- The per-process dispatch state message_func reads: the derived
interface stored in the dbus_interface global, the process id, and which
callback slots hold a handler. -/
structure AppContext where
  dbus_interface : String
  pid : Nat
  stop_registered : Bool
  exec_registered : Bool
  death_registered : Bool
  focus_gained_registered : Bool
  focus_lost_registered : Bool
  message_registered : Bool
deriving DecidableEq

/-- The exec/message payload read sequence: a uint32 count, then count
strings from the following array (the array is not entered when the count
is zero).  A payload of any other shape makes the C read uninitialized
iterator data; modelled from the spec, which has malformed payloads
surface as an unhandled report. -/
def decodeCountedStrings (body : List DBusValue) : Option (Nat × List String) :=
  match body with
  | DBusValue.u32 0 :: _ => some (0, [])
  | DBusValue.u32 n :: DBusValue.strArr ss :: _ =>
      if n ≤ ss.length then some (n, ss.take n) else none
  | _ => none

/-- The focus / app-exit payload read: one integer at the first position. -/
def decodePid (body : List DBusValue) : Option Nat :=
  match body with
  | DBusValue.u32 p :: _ => some p
  | _ => none

/-- message_func: the connection filter.  A first, free-standing if fires
the stop callback for a stop signal on the process's own derived
interface; the handled / not-yet-handled decision is then made only by
the second if / else-if chain (well-known stop, UserInteractionGained,
UserInteractionLost, rotate no-op, own-interface exec, well-known
AppExit, own-interface Message, otherwise not handled).  In the exec
branch the params_list buffer is allocated with
g_malloc0(sizeof(gchar*) * no_of_param) BEFORE the zero test; glib
returns NULL for zero-byte allocations, so a zero count hits the NULL
guard and returns not-yet-handled without invoking the callback.  The
message branch allocates inside the nonzero guard, so a zero count there
invokes the callback with (0, NULL). -/
def message_func (ctx : AppContext) (msg : InboundMessage) :
    HandlerResult × List CallbackEvent :=
  let ev0 :=
    if dbus_message_is_signal msg ctx.dbus_interface CLP_APP_MGR_DBUS_SIGNAL_STOP then
      if ctx.stop_registered then [CallbackEvent.stop] else []
    else []
  if dbus_message_is_signal msg CLP_APP_MGR_DBUS_INTERFACE CLP_APP_MGR_DBUS_SIGNAL_STOP then
    (HandlerResult.handled,
      ev0 ++ (if ctx.stop_registered then [CallbackEvent.stop] else []))
  else if dbus_message_is_signal msg CLP_WIN_MGR_DBUS_INTERFACE CLP_WIN_MGR_DBUS_SIGNAL_UA_GAINED then
    match decodePid msg.body with
    | some p =>
        if p = ctx.pid then
          (HandlerResult.handled,
            ev0 ++ (if ctx.focus_gained_registered then [CallbackEvent.focusGained] else []))
        else (HandlerResult.handled, ev0)
    | none => (HandlerResult.notYetHandled, ev0)
  else if dbus_message_is_signal msg CLP_WIN_MGR_DBUS_INTERFACE CLP_WIN_MGR_DBUS_SIGNAL_UA_LOST then
    match decodePid msg.body with
    | some p =>
        if p = ctx.pid then
          (HandlerResult.handled,
            ev0 ++ (if ctx.focus_lost_registered then [CallbackEvent.focusLost] else []))
        else (HandlerResult.handled, ev0)
    | none => (HandlerResult.notYetHandled, ev0)
  else if dbus_message_is_signal msg CLP_APP_MGR_DBUS_INTERFACE CLP_APP_MGR_DBUS_SIGNAL_ROTATE then
    (HandlerResult.handled, ev0)
  else if dbus_message_is_signal msg ctx.dbus_interface CLP_APP_MGR_DBUS_SIGNAL_EXEC then
    if ctx.exec_registered then
      match decodeCountedStrings msg.body with
      | some (n, ps) =>
          if n = 0 then (HandlerResult.notYetHandled, ev0)
          else (HandlerResult.handled, ev0 ++ [CallbackEvent.execCb n ps])
      | none => (HandlerResult.notYetHandled, ev0)
    else (HandlerResult.handled, ev0)
  else if dbus_message_is_signal msg CLP_APP_MGR_DBUS_INTERFACE CLP_APP_MGR_DBUS_SIGNAL_APPEXIT then
    if ctx.death_registered then
      match decodePid msg.body with
      | some p => (HandlerResult.handled, ev0 ++ [CallbackEvent.death p])
      | none => (HandlerResult.notYetHandled, ev0)
    else (HandlerResult.handled, ev0)
  else if dbus_message_is_signal msg ctx.dbus_interface CLP_APP_MGR_DBUS_SIGNAL_MESSAGE then
    if ctx.message_registered then
      match decodeCountedStrings msg.body with
      | some (n, ps) => (HandlerResult.handled, ev0 ++ [CallbackEvent.messageCb n ps])
      | none => (HandlerResult.notYetHandled, ev0)
    else (HandlerResult.handled, ev0)
  else (HandlerResult.notYetHandled, ev0)

/-- Environment for a registration call: bus-connect success and the
values the configuration registry returns. -/
structure InitEnv where
  busConnectOk : Bool
  pid : Nat
  registryAppId : Int
  registryInstId : Int
  registryMultiInstance : Bool

/-- The process-wide registration state mutated by clp_app_mgr_init: the
appclient_context fields the claims observe, the dbus_interface /
dbus_object globals, the installed signal-match interfaces, whether the
dispatch filter was bound, and the registry writes performed. -/
structure InitState where
  app_name : Option String
  pid : Option Nat
  app_id : Option Int
  inst_id : Option Int
  instance_name : Option String
  dbus_interface : String
  dbus_object : String
  bus_connected : Bool
  init_done : Bool
  post_init_set : Bool
  matchRules : List String
  filterBound : Bool
  registryWrites : List (String × Int)
deriving DecidableEq

/-- The state at process start: context zeroed, the dbus_interface /
dbus_object globals holding the well-known prefixes. -/
def initialState : InitState :=
  { app_name := none, pid := none, app_id := none, inst_id := none,
    instance_name := none,
    dbus_interface := CLP_APP_MGR_DBUS_INTERFACE,
    dbus_object := CLP_APP_MGR_DBUS_OBJECT,
    bus_connected := false, init_done := false, post_init_set := false,
    matchRules := [], filterBound := false, registryWrites := [] }

/-- clp_app_mgr_init: splits off an optional dot-qualifier keeping the
first chunk as the application name, appends the name (and, for
multi-instance applications, the instance id) to the MAX_SIZE-bounded
dbus_interface / dbus_object buffers via g_strlcat (truncating),
writes the PID into the registry, reads app id / instance id / instance
type back, forms the instance name by g_strconcat (untruncated), then
opens the bus connection; only after a successful connect does it clear
the callback slots, mark init done, install the three signal matches and
bind the dispatch filter. -/
def clp_app_mgr_init (st0 : InitState) (env : InitEnv) (name : String) :
    Int × InitState :=
  let app_name := (splitFirst (Char.ofNat 46) name).1
  let st1 := { st0 with
    app_name := some app_name, pid := some env.pid,
    dbus_interface :=
      g_strlcat (g_strlcat st0.dbus_interface "." MAX_SIZE) app_name MAX_SIZE,
    dbus_object :=
      g_strlcat (g_strlcat st0.dbus_object "/" MAX_SIZE) app_name MAX_SIZE }
  let st2 := { st1 with
    registryWrites := st1.registryWrites ++
      [(GCONF_APPS_DIR ++ "/" ++ app_name ++ "/info/PID", (env.pid : Int))],
    app_id := some env.registryAppId,
    inst_id := some env.registryInstId }
  let st3 :=
    if env.registryMultiInstance then
      { st2 with
        instance_name := some (app_name ++ ":" ++ toString env.registryInstId),
        dbus_interface :=
          g_strlcat st2.dbus_interface (toString env.registryInstId) MAX_SIZE,
        dbus_object :=
          g_strlcat st2.dbus_object (toString env.registryInstId) MAX_SIZE }
    else { st2 with instance_name := some app_name }
  if env.busConnectOk then
    let st4 := { st3 with
      bus_connected := true, init_done := true,
      matchRules := [st3.dbus_interface, CLP_APP_MGR_DBUS_INTERFACE,
                     CLP_WIN_MGR_DBUS_INTERFACE],
      filterBound := true }
    (CLP_APP_MGR_SUCCESS, st4)
  else (CLP_APP_MGR_DBUS_CALL_FAIL, st3)

/-- Result of the asynchronous registration variant: the return code, the
final state, and whether the post-init callback was invoked. -/
structure AsyncInitResult where
  ret : Int
  state : InitState
  postInitInvoked : Bool
deriving DecidableEq

/-- clp_app_mgr_async_init: stores the post-init handler (possibly NULL)
in its slot, runs clp_app_mgr_init in full (ignoring its return code),
then invokes the stored handler and returns success if one is set, and
returns failure without invoking anything if the slot holds NULL. -/
def clp_app_mgr_async_init (st0 : InitState) (env : InitEnv) (name : String)
    (post_init_handler : Bool) : AsyncInitResult :=
  let stA := { st0 with post_init_set := post_init_handler }
  let st1 := (clp_app_mgr_init stA env name).2
  if st1.post_init_set then ⟨CLP_APP_MGR_SUCCESS, st1, true⟩
  else ⟨CLP_APP_MGR_FAILURE, st1, false⟩

/-- Delivery of a sent signal back into a dispatch filter: the payload a
sender appended (uint32 count, then the string array) is what the
receiver's iterator walks. -/
def toInbound (s : SentSignal) : InboundMessage :=
  ⟨true, s.iface, s.member, [DBusValue.u32 s.count, DBusValue.strArr s.strings]⟩

/-- The interface string clp_app_mgr_init derives: the well-known prefix,
a dot, the application name, and the bare instance id for multi-instance
applications, each appended by g_strlcat into the MAX_SIZE buffer
(truncating). -/
def derived_interface (app_name : String) (multi : Bool) (inst_id : Int) : String :=
  let s := g_strlcat (g_strlcat CLP_APP_MGR_DBUS_INTERFACE "." MAX_SIZE)
    app_name MAX_SIZE
  if multi then g_strlcat s (toString inst_id) MAX_SIZE else s

/-- The object-path string clp_app_mgr_init derives (g_strlcat into the
MAX_SIZE buffer, truncating). -/
def derived_object (app_name : String) (multi : Bool) (inst_id : Int) : String :=
  let s := g_strlcat (g_strlcat CLP_APP_MGR_DBUS_OBJECT "/" MAX_SIZE)
    app_name MAX_SIZE
  if multi then g_strlcat s (toString inst_id) MAX_SIZE else s

/-- The instance name clp_app_mgr_init derives: the application name, with
a colon-separated instance id appended for multi-instance applications
(g_strconcat, untruncated). -/
def derived_instance_name (app_name : String) (multi : Bool) (inst_id : Int) : String :=
  if multi then app_name ++ ":" ++ toString inst_id else app_name

lemma g_strlcat_of_fits (a b : String) (siz : Nat)
    (h : a.data.length + b.data.length ≤ siz - 1) :
    g_strlcat a b siz = a ++ b := by
  unfold g_strlcat
  rw [List.take_of_length_le (by simpa using h)]
  rfl

lemma decodeCountedStrings_eq (n : Nat) (ss : List String) (h : n ≤ ss.length) :
    decodeCountedStrings [DBusValue.u32 n, DBusValue.strArr ss] =
      some (n, ss.take n) := by
  cases n with
  | zero => rfl
  | succ m => simp [decodeCountedStrings, h]

lemma messageFunc_own_exec (ctx : AppContext) (n : Nat) (ss : List String)
    (hreg : ctx.exec_registered = true) (hlen : n ≤ ss.length) :
    message_func ctx
      ⟨true, ctx.dbus_interface, CLP_APP_MGR_DBUS_SIGNAL_EXEC,
        [DBusValue.u32 n, DBusValue.strArr ss]⟩ =
      if n = 0 then (HandlerResult.notYetHandled, [])
      else (HandlerResult.handled, [CallbackEvent.execCb n (ss.take n)]) := by
  unfold message_func
  simp [dbus_message_is_signal, CLP_APP_MGR_DBUS_SIGNAL_EXEC,
    CLP_APP_MGR_DBUS_SIGNAL_STOP, CLP_WIN_MGR_DBUS_SIGNAL_UA_GAINED,
    CLP_WIN_MGR_DBUS_SIGNAL_UA_LOST, CLP_APP_MGR_DBUS_SIGNAL_ROTATE,
    CLP_APP_MGR_DBUS_SIGNAL_APPEXIT, CLP_APP_MGR_DBUS_SIGNAL_MESSAGE,
    hreg, decodeCountedStrings_eq n ss hlen]

lemma messageFunc_own_message (ctx : AppContext) (n : Nat) (ss : List String)
    (hreg : ctx.message_registered = true) (hlen : n ≤ ss.length) :
    message_func ctx
      ⟨true, ctx.dbus_interface, CLP_APP_MGR_DBUS_SIGNAL_MESSAGE,
        [DBusValue.u32 n, DBusValue.strArr ss]⟩ =
      (HandlerResult.handled, [CallbackEvent.messageCb n (ss.take n)]) := by
  unfold message_func
  simp [dbus_message_is_signal, CLP_APP_MGR_DBUS_SIGNAL_EXEC,
    CLP_APP_MGR_DBUS_SIGNAL_STOP, CLP_WIN_MGR_DBUS_SIGNAL_UA_GAINED,
    CLP_WIN_MGR_DBUS_SIGNAL_UA_LOST, CLP_APP_MGR_DBUS_SIGNAL_ROTATE,
    CLP_APP_MGR_DBUS_SIGNAL_APPEXIT, CLP_APP_MGR_DBUS_SIGNAL_MESSAGE,
    hreg, decodeCountedStrings_eq n ss hlen]

/-- C1 (counterexample): an inbound exec signal on the derived interface
with payload (2, ["appX", "a", "b"]) invokes the exec callback with
count=2 and params=["appX", "a"]: the decoder reads the first count
strings of the wire array, so the prepended name "appX" IS among the
strings passed to the callback, and the params are not ["a", "b"] as the
claim states. -/
theorem exec_dispatch_skips_name_counterexample :
    message_func
      ⟨"org.clp.appmanager.appX", 42, true, true, true, true, true, true⟩
      ⟨true, "org.clp.appmanager.appX", "exec",
        [DBusValue.u32 2, DBusValue.strArr ["appX", "a", "b"]]⟩ =
      (HandlerResult.handled, [CallbackEvent.execCb 2 ["appX", "a"]]) ∧
    "appX" ∈ ["appX", "a"] ∧
    CallbackEvent.execCb 2 ["appX", "a"] ≠ CallbackEvent.execCb 2 ["a", "b"] := by
  refine ⟨?_, ?_, ?_⟩ <;> decide

/-- C1 (amended): an inbound exec signal on the process's own derived
interface with payload (count, stringArray) and nonzero count invokes the
registered exec callback with that count and with the FIRST count strings
of the wire array, in wire order; the prepended name (argument zero) is
passed through to the callback, not skipped.  At count zero the
g_malloc0(0) == NULL guard fires instead: no callback, reported
not-yet-handled. -/
theorem exec_dispatch_first_count_strings (ctx : AppContext) (n : Nat)
    (ss : List String) (hreg : ctx.exec_registered = true)
    (hlen : n ≤ ss.length) :
    (n ≠ 0 →
      message_func ctx
        ⟨true, ctx.dbus_interface, CLP_APP_MGR_DBUS_SIGNAL_EXEC,
          [DBusValue.u32 n, DBusValue.strArr ss]⟩ =
        (HandlerResult.handled, [CallbackEvent.execCb n (ss.take n)])) ∧
    (n = 0 →
      message_func ctx
        ⟨true, ctx.dbus_interface, CLP_APP_MGR_DBUS_SIGNAL_EXEC,
          [DBusValue.u32 n, DBusValue.strArr ss]⟩ =
        (HandlerResult.notYetHandled, [])) := by
  rw [messageFunc_own_exec ctx n ss hreg hlen]
  constructor
  · intro hn
    simp [hn]
  · intro hn
    simp [hn]

/-- C1 (witness): the amended statement evaluated on the claim's own
payload (2, ["appX", "a", "b"]). -/
theorem exec_dispatch_first_count_strings_witness :
    message_func
      ⟨"org.clp.appmanager.appY", 42, true, true, true, true, true, true⟩
      ⟨true, "org.clp.appmanager.appY", CLP_APP_MGR_DBUS_SIGNAL_EXEC,
        [DBusValue.u32 2, DBusValue.strArr ["appX", "a", "b"]]⟩ =
      (HandlerResult.handled,
        [CallbackEvent.execCb 2 (["appX", "a", "b"].take 2)]) :=
  (exec_dispatch_first_count_strings
    ⟨"org.clp.appmanager.appY", 42, true, true, true, true, true, true⟩
    2 ["appX", "a", "b"] (by decide) (by decide)).1 (by decide)

/-- C10: an inbound stop signal whose interface is the process's own
derived interface (and not the well-known app-manager interface) invokes
the registered stop callback via the first, free-standing if, and is
nevertheless reported back to the bus layer as not handled, because the
handled decision is made only by the second if/else-if chain, which the
first stop check is not part of. -/
theorem stop_quirk_invoked_but_unhandled (ctx : AppContext)
    (body : List DBusValue) (hreg : ctx.stop_registered = true)
    (hiface : ctx.dbus_interface ≠ CLP_APP_MGR_DBUS_INTERFACE) :
    message_func ctx
      ⟨true, ctx.dbus_interface, CLP_APP_MGR_DBUS_SIGNAL_STOP, body⟩ =
      (HandlerResult.notYetHandled, [CallbackEvent.stop]) := by
  unfold message_func
  simp [dbus_message_is_signal, CLP_APP_MGR_DBUS_SIGNAL_EXEC,
    CLP_APP_MGR_DBUS_SIGNAL_STOP, CLP_WIN_MGR_DBUS_SIGNAL_UA_GAINED,
    CLP_WIN_MGR_DBUS_SIGNAL_UA_LOST, CLP_APP_MGR_DBUS_SIGNAL_ROTATE,
    CLP_APP_MGR_DBUS_SIGNAL_APPEXIT, CLP_APP_MGR_DBUS_SIGNAL_MESSAGE,
    hreg, hiface]

/-- C10 (witness): a concrete stop signal on a derived interface distinct
from the well-known one: the stop callback fires and the filter still
reports not-yet-handled. -/
theorem stop_quirk_invoked_but_unhandled_witness :
    message_func
      ⟨"org.clp.appmanager.appX", 42, true, true, true, true, true, true⟩
      ⟨true, "org.clp.appmanager.appX", CLP_APP_MGR_DBUS_SIGNAL_STOP, []⟩ =
      (HandlerResult.notYetHandled, [CallbackEvent.stop]) :=
  stop_quirk_invoked_but_unhandled
    ⟨"org.clp.appmanager.appX", 42, true, true, true, true, true, true⟩
    [] (by decide) (by decide)

/-- C3 (counterexample): sendMessage("appY:3", ["ping"]) produces exactly
one Message signal addressed to the interface / object path rebuilt from
the target name, but its payload count is 2 (the destination name plus
one message string), not 1 as the claim states. -/
theorem sendMessage_payload_counterexample :
    clp_app_mgr_send_message ⟨true⟩ "appY:3" ["ping"] =
      (CLP_APP_MGR_SUCCESS,
        [⟨"/org/clp/appmanager/appY3", "org.clp.appmanager.appY3",
          CLP_APP_MGR_DBUS_SIGNAL_MESSAGE, 2, ["appY:3", "ping"]⟩]) ∧
    (2 : Nat) ≠ 1 := by
  refine ⟨?_, ?_⟩ <;> decide

/-- C3 (amended): sendMessage to a target instance name that splits at its
colon into (name, instanceId), when the derived address strings fit the
MAX_SIZE registration buffers (so registration-side truncation is a
no-op), produces exactly one Message signal addressed to the interface
and object path derived from (name, multi-instance, instanceId), whose
payload is (1 + number of message strings, [targetInstanceName, msg1,
...]); for sendMessage("appY:3", ["ping"]) the payload is
(2, ["appY:3", "ping"]). -/
theorem sendMessage_signal_amended (name tgt : String) (k : Int)
    (msgs : List String)
    (hsp : splitFirst (Char.ofNat 58) tgt = (name, toString k))
    (hfit1 : (CLP_APP_MGR_DBUS_INTERFACE ++ "." ++ name).data.length +
      (toString k).data.length ≤ MAX_SIZE - 1)
    (hfit2 : (CLP_APP_MGR_DBUS_OBJECT ++ "/" ++ name).data.length +
      (toString k).data.length ≤ MAX_SIZE - 1) :
    clp_app_mgr_send_message ⟨true⟩ tgt msgs =
      (CLP_APP_MGR_SUCCESS,
        [⟨derived_object name true k, derived_interface name true k,
          CLP_APP_MGR_DBUS_SIGNAL_MESSAGE, 1 + msgs.length, tgt :: msgs⟩]) := by
  have hb1 : (CLP_APP_MGR_DBUS_INTERFACE.data.length + ".".data.length) ≤
      MAX_SIZE - 1 := by decide
  have hb2 : (CLP_APP_MGR_DBUS_OBJECT.data.length + "/".data.length) ≤
      MAX_SIZE - 1 := by decide
  have hfit1a : ((CLP_APP_MGR_DBUS_INTERFACE ++ ".").data.length +
      name.data.length) ≤ MAX_SIZE - 1 := by
    have := hfit1
    simp only [String.data_append, List.length_append] at this ⊢
    omega
  have hfit2a : ((CLP_APP_MGR_DBUS_OBJECT ++ "/").data.length +
      name.data.length) ≤ MAX_SIZE - 1 := by
    have := hfit2
    simp only [String.data_append, List.length_append] at this ⊢
    omega
  have hfit1b : ((CLP_APP_MGR_DBUS_INTERFACE ++ "." ++ name).data.length +
      (toString k).data.length) ≤ MAX_SIZE - 1 := hfit1
  have hfit2b : ((CLP_APP_MGR_DBUS_OBJECT ++ "/" ++ name).data.length +
      (toString k).data.length) ≤ MAX_SIZE - 1 := hfit2
  unfold clp_app_mgr_send_message derived_object derived_interface
  rw [hsp]
  simp only [g_strlcat_of_fits _ _ _ hb1, g_strlcat_of_fits _ _ _ hb2,
    g_strlcat_of_fits _ _ _ hfit1a, g_strlcat_of_fits _ _ _ hfit2a,
    g_strlcat_of_fits _ _ _ hfit1b, g_strlcat_of_fits _ _ _ hfit2b,
    if_true]

/-- C3 (witness): the amended statement evaluated at
sendMessage("appY:3", ["ping"]). -/
theorem sendMessage_signal_amended_witness :
    clp_app_mgr_send_message ⟨true⟩ "appY:3" ["ping"] =
      (CLP_APP_MGR_SUCCESS,
        [⟨derived_object "appY" true 3, derived_interface "appY" true 3,
          CLP_APP_MGR_DBUS_SIGNAL_MESSAGE, 1 + ["ping"].length,
          "appY:3" :: ["ping"]⟩]) :=
  sendMessage_signal_amended "appY" "appY:3" 3 ["ping"]
    (by decide) (by decide) (by decide)

/-- C5: while the registry's process-wide shutdown flag is set, every
launch variant fails immediately (the helpers return the shutdown code -1
before touching the bus, and the public calls report failure) and no bus
traffic at all is issued: no daemon launch call and no forwarded
signal. -/
theorem shutdown_blocks_launch (env : LaunchEnv) (app : String)
    (args : List String) (h : env.shutdown = true) :
    clp_app_mgr_exec env app args = ⟨CLP_APP_MGR_FAILURE, [], []⟩ ∧
    clp_app_mgr_exec_application env app args = ⟨CLP_APP_MGR_FAILURE, [], []⟩ ∧
    clp_app_mgr_exec_argv env app args = ⟨CLP_APP_MGR_FAILURE, [], []⟩ ∧
    ClpAppMgrAppLaunchWithArgs env env.registryAppId args = ⟨-1, none, []⟩ ∧
    ClpAppMgrAppLaunchWithArgv env env.registryAppId args = ⟨-1, none, []⟩ := by
  unfold clp_app_mgr_exec clp_app_mgr_exec_application clp_app_mgr_exec_argv
    ClpAppMgrAppLaunchWithArgs ClpAppMgrAppLaunchWithArgv
  simp [h, APPMGR_ERROR_APP_ALREADY_RUNNING, CLP_APP_MGR_FAILURE]

/-- C5 (witness): a concrete shutdown environment: every variant returns
failure with empty signal and daemon-call traces. -/
theorem shutdown_blocks_launch_witness :
    clp_app_mgr_exec ⟨true, false, 7, true, true, 5, 0, true, true⟩
        "calendar" ["2024-01-01"] = ⟨CLP_APP_MGR_FAILURE, [], []⟩ ∧
    clp_app_mgr_exec_application ⟨true, false, 7, true, true, 5, 0, true, true⟩
        "calendar" ["2024-01-01"] = ⟨CLP_APP_MGR_FAILURE, [], []⟩ ∧
    clp_app_mgr_exec_argv ⟨true, false, 7, true, true, 5, 0, true, true⟩
        "calendar" ["2024-01-01"] = ⟨CLP_APP_MGR_FAILURE, [], []⟩ ∧
    ClpAppMgrAppLaunchWithArgs ⟨true, false, 7, true, true, 5, 0, true, true⟩ 7
        ["2024-01-01"] = ⟨-1, none, []⟩ ∧
    ClpAppMgrAppLaunchWithArgv ⟨true, false, 7, true, true, 5, 0, true, true⟩ 7
        ["2024-01-01"] = ⟨-1, none, []⟩ :=
  shutdown_blocks_launch ⟨true, false, 7, true, true, 5, 0, true, true⟩
    "calendar" ["2024-01-01"] (by decide)

/-- C6: registration is atomic on bus-connection failure: if opening the
bus connection fails, clp_app_mgr_init returns an error (never success),
no signal-match filters are installed, the dispatch filter is not bound,
and the registration context is not published (init_done stays false and
the connection handle is not recorded). -/
theorem init_atomic_on_bus_failure (env : InitEnv) (name : String)
    (h : env.busConnectOk = false) :
    (clp_app_mgr_init initialState env name).1 ≠ CLP_APP_MGR_SUCCESS ∧
    (clp_app_mgr_init initialState env name).2.matchRules = [] ∧
    (clp_app_mgr_init initialState env name).2.filterBound = false ∧
    (clp_app_mgr_init initialState env name).2.init_done = false ∧
    (clp_app_mgr_init initialState env name).2.bus_connected = false := by
  unfold clp_app_mgr_init
  simp [h, initialState, CLP_APP_MGR_SUCCESS, CLP_APP_MGR_DBUS_CALL_FAIL]
  split <;> simp

/-- C6 (witness): a concrete failing bus connect leaves no filters, no
bound dispatch filter and no published context. -/
theorem init_atomic_on_bus_failure_witness :
    (clp_app_mgr_init initialState ⟨false, 42, 7, 3, false⟩ "appX").1 ≠
      CLP_APP_MGR_SUCCESS ∧
    (clp_app_mgr_init initialState ⟨false, 42, 7, 3, false⟩ "appX").2.matchRules = [] ∧
    (clp_app_mgr_init initialState ⟨false, 42, 7, 3, false⟩ "appX").2.filterBound = false ∧
    (clp_app_mgr_init initialState ⟨false, 42, 7, 3, false⟩ "appX").2.init_done = false ∧
    (clp_app_mgr_init initialState ⟨false, 42, 7, 3, false⟩ "appX").2.bus_connected = false :=
  init_atomic_on_bus_failure ⟨false, 42, 7, 3, false⟩ "appX" (by decide)

lemma exec_already_eq (env : LaunchEnv) (dest : String) (args : List String)
    (h1 : env.shutdown = false) (h2 : env.instIdPtrNull = false)
    (h3 : env.proxyOk = true) (h4 : env.callOk = true)
    (h5 : env.daemonErrorCode = APPMGR_ERROR_APP_ALREADY_RUNNING)
    (h6 : env.msgNewOk = true) (h7 : env.sendOk = true) :
    clp_app_mgr_exec env dest args =
      ⟨CLP_APP_MGR_SUCCESS,
        [⟨CLP_APP_MGR_DBUS_OBJECT ++ "/" ++ dest,
          CLP_APP_MGR_DBUS_INTERFACE ++ "." ++ dest,
          CLP_APP_MGR_DBUS_SIGNAL_EXEC, 1 + args.length, dest :: args⟩],
        [⟨env.registryAppId, joinWithArgs args⟩]⟩ := by
  unfold clp_app_mgr_exec ClpAppMgrAppLaunchWithArgs
  simp [h1, h2, h3, h4, h5, h6, h7, APPMGR_ERROR_APP_ALREADY_RUNNING]

lemma exec_cold_eq (env : LaunchEnv) (dest : String) (args : List String)
    (h1 : env.shutdown = false) (h2 : env.instIdPtrNull = false)
    (h3 : env.proxyOk = true) (h4 : env.callOk = true)
    (h5 : env.daemonErrorCode = 0) (h6 : 0 < env.daemonInstId) :
    clp_app_mgr_exec env dest args =
      ⟨CLP_APP_MGR_SUCCESS, [], [⟨env.registryAppId, joinWithArgs args⟩]⟩ := by
  unfold clp_app_mgr_exec ClpAppMgrAppLaunchWithArgs
  simp [h1, h2, h3, h4, h5, APPMGR_ERROR_APP_ALREADY_RUNNING,
    CLP_APP_MGR_SUCCESS, not_le.mpr h6]

/-- C4: against a daemon reporting AlreadyRunning, a launch sends exactly
one exec signal, addressed with single-instance derivation from the
target name, whose payload counts the target name plus the N arguments
and whose string array is the target's own name prepended before the
arguments; launch("calendar", ["2024-01-01"]) therefore yields payload
(2, ["calendar", "2024-01-01"]) (witness); and on a successful cold
launch (error code 0, positive instance id) no signal is sent and the
call returns success. -/
theorem launch_alreadyRunning_signal (env env2 : LaunchEnv) (app : String)
    (args : List String)
    (h1 : env.shutdown = false) (h2 : env.instIdPtrNull = false)
    (h3 : env.proxyOk = true) (h4 : env.callOk = true)
    (h5 : env.daemonErrorCode = APPMGR_ERROR_APP_ALREADY_RUNNING)
    (h6 : env.msgNewOk = true) (h7 : env.sendOk = true)
    (g1 : env2.shutdown = false) (g2 : env2.instIdPtrNull = false)
    (g3 : env2.proxyOk = true) (g4 : env2.callOk = true)
    (g5 : env2.daemonErrorCode = 0) (g6 : 0 < env2.daemonInstId) :
    (clp_app_mgr_exec env app args).signals =
      [⟨CLP_APP_MGR_DBUS_OBJECT ++ "/" ++ app,
        CLP_APP_MGR_DBUS_INTERFACE ++ "." ++ app,
        CLP_APP_MGR_DBUS_SIGNAL_EXEC, 1 + args.length, app :: args⟩] ∧
    (clp_app_mgr_exec env app args).ret = CLP_APP_MGR_SUCCESS ∧
    (clp_app_mgr_exec env2 app args).signals = [] ∧
    (clp_app_mgr_exec env2 app args).ret = CLP_APP_MGR_SUCCESS := by
  rw [exec_already_eq env app args h1 h2 h3 h4 h5 h6 h7,
    exec_cold_eq env2 app args g1 g2 g3 g4 g5 g6]
  exact ⟨rfl, rfl, rfl, rfl⟩

/-- C4 (witness): launch("calendar", ["2024-01-01"]) against an
already-running daemon produces the one signal with payload
(2, ["calendar", "2024-01-01"]); against a daemon answering success with
instance id 5, no signal and success. -/
theorem launch_alreadyRunning_signal_witness :
    (clp_app_mgr_exec ⟨false, false, 7, true, true, 3,
        APPMGR_ERROR_APP_ALREADY_RUNNING, true, true⟩
        "calendar" ["2024-01-01"]).signals =
      [⟨CLP_APP_MGR_DBUS_OBJECT ++ "/" ++ "calendar",
        CLP_APP_MGR_DBUS_INTERFACE ++ "." ++ "calendar",
        CLP_APP_MGR_DBUS_SIGNAL_EXEC, 1 + ["2024-01-01"].length,
        "calendar" :: ["2024-01-01"]⟩] ∧
    (clp_app_mgr_exec ⟨false, false, 7, true, true, 3,
        APPMGR_ERROR_APP_ALREADY_RUNNING, true, true⟩
        "calendar" ["2024-01-01"]).ret = CLP_APP_MGR_SUCCESS ∧
    (clp_app_mgr_exec ⟨false, false, 7, true, true, 5, 0, true, true⟩
        "calendar" ["2024-01-01"]).signals = [] ∧
    (clp_app_mgr_exec ⟨false, false, 7, true, true, 5, 0, true, true⟩
        "calendar" ["2024-01-01"]).ret = CLP_APP_MGR_SUCCESS :=
  launch_alreadyRunning_signal
    ⟨false, false, 7, true, true, 3, APPMGR_ERROR_APP_ALREADY_RUNNING, true, true⟩
    ⟨false, false, 7, true, true, 5, 0, true, true⟩
    "calendar" ["2024-01-01"] rfl rfl rfl rfl rfl rfl rfl
    rfl rfl rfl rfl rfl (by decide)

/-- C2: decoding by the dispatch engine of a payload produced by the
launch coordinator's exec encoding, or by the messaging channel's Message
encoding, reproduces the sender's wire argument list exactly for any
argument count N (0, 1, N): the invoked callback receives count
1 + N and the string list [destinationName, arg1, ..., argN]; for N = 0
the decoded list is the destination name alone. -/
theorem roundtrip_encode_decode (env : LaunchEnv) (dest tgt : String)
    (args msgs : List String) (ctx ctx2 : AppContext)
    (h1 : env.shutdown = false) (h2 : env.instIdPtrNull = false)
    (h3 : env.proxyOk = true) (h4 : env.callOk = true)
    (h5 : env.daemonErrorCode = APPMGR_ERROR_APP_ALREADY_RUNNING)
    (h6 : env.msgNewOk = true) (h7 : env.sendOk = true)
    (hctx : ctx.dbus_interface = CLP_APP_MGR_DBUS_INTERFACE ++ "." ++ dest)
    (hreg : ctx.exec_registered = true)
    (hctx2 : ctx2.dbus_interface =
      CLP_APP_MGR_DBUS_INTERFACE ++ "." ++
        (splitFirst (Char.ofNat 58) tgt).1 ++ (splitFirst (Char.ofNat 58) tgt).2)
    (hreg2 : ctx2.message_registered = true) :
    (clp_app_mgr_exec env dest args).signals.map
        (fun s => message_func ctx (toInbound s)) =
      [(HandlerResult.handled,
        [CallbackEvent.execCb (1 + args.length) (dest :: args)])] ∧
    (clp_app_mgr_send_message ⟨true⟩ tgt msgs).2.map
        (fun s => message_func ctx2 (toInbound s)) =
      [(HandlerResult.handled,
        [CallbackEvent.messageCb (1 + msgs.length) (tgt :: msgs)])] := by
  constructor
  · rw [exec_already_eq env dest args h1 h2 h3 h4 h5 h6 h7]
    have htake : (dest :: args).take (1 + args.length) = dest :: args := by
      rw [Nat.add_comm, ← List.length_cons dest args, List.take_length]
    have hx := messageFunc_own_exec ctx (1 + args.length) (dest :: args) hreg
      (by simp [Nat.add_comm])
    rw [htake, if_neg (by omega)] at hx
    simp only [List.map, toInbound, ← hctx, hx]
  · unfold clp_app_mgr_send_message
    simp only [if_true]
    have htake : (tgt :: msgs).take (1 + msgs.length) = tgt :: msgs := by
      rw [Nat.add_comm, ← List.length_cons tgt msgs, List.take_length]
    have hx := messageFunc_own_message ctx2 (1 + msgs.length) (tgt :: msgs) hreg2
      (by simp [Nat.add_comm])
    rw [htake] at hx
    simp only [List.map, toInbound, ← hctx2, hx]

/-- C2 (witness): round trips at argument counts 0 and 1: the exec side
decodes to ["calendar"] (destination name only) for the empty list, and
the message side decodes to ["appY:3", "ping"]. -/
theorem roundtrip_encode_decode_witness :
    (clp_app_mgr_exec ⟨false, false, 7, true, true, 3,
        APPMGR_ERROR_APP_ALREADY_RUNNING, true, true⟩ "calendar" []).signals.map
        (fun s => message_func
          ⟨"org.clp.appmanager" ++ "." ++ "calendar", 42,
            true, true, true, true, true, true⟩ (toInbound s)) =
      [(HandlerResult.handled,
        [CallbackEvent.execCb (1 + ([] : List String).length) ["calendar"]])] ∧
    (clp_app_mgr_send_message ⟨true⟩ "appY:3" ["ping"]).2.map
        (fun s => message_func
          ⟨"org.clp.appmanager" ++ "." ++ "appY" ++ "3", 42,
            true, true, true, true, true, true⟩ (toInbound s)) =
      [(HandlerResult.handled,
        [CallbackEvent.messageCb (1 + ["ping"].length) ["appY:3", "ping"]])] :=
  roundtrip_encode_decode
    ⟨false, false, 7, true, true, 3, APPMGR_ERROR_APP_ALREADY_RUNNING, true, true⟩
    "calendar" "appY:3" [] ["ping"]
    ⟨"org.clp.appmanager" ++ "." ++ "calendar", 42, true, true, true, true, true, true⟩
    ⟨"org.clp.appmanager" ++ "." ++ "appY" ++ "3", 42, true, true, true, true, true, true⟩
    rfl rfl rfl rfl rfl rfl rfl rfl rfl (by decide) rfl

lemma foldl_appendDelim_pull (l : List String) (p q : String) :
    l.foldl appendDelim (p ++ q) = p ++ l.foldl appendDelim q := by
  induction l generalizing q with
  | nil => rfl
  | cons x xs ih =>
      simp only [List.foldl, appendDelim, String.append_assoc, ih]

set_option linter.unnecessarySeqFocus false in
lemma withArgv_relates (env : LaunchEnv) (app_id : Int) (params : List String) :
    ClpAppMgrAppLaunchWithArgv env app_id params =
      { ClpAppMgrAppLaunchWithArgs env app_id params with
          calls := (ClpAppMgrAppLaunchWithArgs env app_id params).calls.map
            (fun c => { c with args := some (joinWithArgv params) }) } := by
  unfold ClpAppMgrAppLaunchWithArgv ClpAppMgrAppLaunchWithArgs
  rcases env with ⟨sd, inp, raid, pok, cok, dii, dec, mok, sok⟩
  cases sd <;> cases inp <;> cases pok <;> cases cok <;>
    simp_all <;> by_cases h0 : dec = 0 <;> simp [h0]

/-- C7 (counterexample): with one argument "a", the variadic variant hands
the daemon the argument string "a" while the argc/argv variant hands it
the string with a leading delimiter (byte 16) before "a" — the daemon
launch calls of the two variants are not the same. -/
theorem launch_variants_argstring_counterexample :
    (clp_app_mgr_exec ⟨false, false, 7, true, true, 5, 0, true, true⟩
        "app" ["a"]).calls = [⟨7, some "a"⟩] ∧
    (clp_app_mgr_exec_argv ⟨false, false, 7, true, true, 5, 0, true, true⟩
        "app" ["a"]).calls = [⟨7, some ("\x10" ++ "a")⟩] ∧
    (clp_app_mgr_exec ⟨false, false, 7, true, true, 5, 0, true, true⟩
        "app" ["a"]).calls ≠
      (clp_app_mgr_exec_argv ⟨false, false, 7, true, true, 5, 0, true, true⟩
        "app" ["a"]).calls := by
  refine ⟨?_, ?_, ?_⟩ <;> decide

/-- C7 (amended): the plain variadic and the pre-built va-list variants
behave identically (same daemon call, same signals, same result); the
argc/argv variant returns the same result code and sends the same exec
signals, and issues its daemon call to the same application id, but with
a different delimiter-joined argument string: it prefixes every argument
(the first included) with the delimiter, so a nonempty list yields the
delimiter followed by the string the other variants send, and an empty
list yields the empty string where the other variants send NULL. -/
theorem launch_variants_relation (env : LaunchEnv) (app : String)
    (args : List String) :
    clp_app_mgr_exec_application env app args = clp_app_mgr_exec env app args ∧
    (clp_app_mgr_exec_argv env app args).ret =
      (clp_app_mgr_exec env app args).ret ∧
    (clp_app_mgr_exec_argv env app args).signals =
      (clp_app_mgr_exec env app args).signals ∧
    (clp_app_mgr_exec_argv env app args).calls =
      (clp_app_mgr_exec env app args).calls.map
        (fun c => { c with args := some (joinWithArgv args) }) ∧
    joinWithArgv [] = "" ∧ joinWithArgs ([] : List String) = none ∧
    (∀ a rest, some (joinWithArgv (a :: rest)) =
      (joinWithArgs (a :: rest)).map (fun s => delim ++ s)) := by
  have h := withArgv_relates env env.registryAppId args
  have hcomp :
      (clp_app_mgr_exec_argv env app args).ret =
        (clp_app_mgr_exec env app args).ret ∧
      (clp_app_mgr_exec_argv env app args).signals =
        (clp_app_mgr_exec env app args).signals ∧
      (clp_app_mgr_exec_argv env app args).calls =
        (clp_app_mgr_exec env app args).calls.map
          (fun c => { c with args := some (joinWithArgv args) }) := by
    unfold clp_app_mgr_exec_argv clp_app_mgr_exec
    simp only [h]
    generalize ClpAppMgrAppLaunchWithArgs env env.registryAppId args = r
    rcases r with ⟨ret, instid, calls⟩
    by_cases hAR : ret = APPMGR_ERROR_APP_ALREADY_RUNNING <;>
      cases hm : env.msgNewOk <;> cases hs : env.sendOk <;>
      simp_all [Nat.add_comm] <;> split <;> simp
  refine ⟨rfl, hcomp.1, hcomp.2.1, hcomp.2.2, rfl, rfl, ?_⟩
  intro a rest
  simp only [joinWithArgv, joinWithArgs, List.foldl, Option.map_some]
  rw [show appendDelim "" a = delim ++ a by
        simp [appendDelim, String.empty_append],
      show (delim ++ a : String) = delim ++ a ++ "" by
        rw [String.append_empty],
      String.append_assoc, foldl_appendDelim_pull]
  rw [String.append_empty a]
  rfl

/-- C7 (witness): the relation evaluated at a concrete environment and the
one-argument list ["a"]. -/
theorem launch_variants_relation_witness :
    clp_app_mgr_exec_application ⟨false, false, 7, true, true, 5, 0, true, true⟩
        "app" ["a"] =
      clp_app_mgr_exec ⟨false, false, 7, true, true, 5, 0, true, true⟩
        "app" ["a"] ∧
    (clp_app_mgr_exec_argv ⟨false, false, 7, true, true, 5, 0, true, true⟩
        "app" ["a"]).ret =
      (clp_app_mgr_exec ⟨false, false, 7, true, true, 5, 0, true, true⟩
        "app" ["a"]).ret ∧
    (clp_app_mgr_exec_argv ⟨false, false, 7, true, true, 5, 0, true, true⟩
        "app" ["a"]).signals =
      (clp_app_mgr_exec ⟨false, false, 7, true, true, 5, 0, true, true⟩
        "app" ["a"]).signals ∧
    (clp_app_mgr_exec_argv ⟨false, false, 7, true, true, 5, 0, true, true⟩
        "app" ["a"]).calls =
      (clp_app_mgr_exec ⟨false, false, 7, true, true, 5, 0, true, true⟩
        "app" ["a"]).calls.map
        (fun c => { c with args := some (joinWithArgv ["a"]) }) ∧
    joinWithArgv [] = "" ∧ joinWithArgs ([] : List String) = none ∧
    (∀ a rest, some (joinWithArgv (a :: rest)) =
      (joinWithArgs (a :: rest)).map (fun s => delim ++ s)) :=
  launch_variants_relation ⟨false, false, 7, true, true, 5, 0, true, true⟩
    "app" ["a"]

/-- C8: the asynchronous registration variant with no post-registration
callback performs the full registration (the state is exactly the one
clp_app_mgr_init produces, registration itself returned success and is
marked done) and then reports failure without invoking anything; with a
callback supplied it invokes it right after registration and reports
success. -/
theorem asyncInit_postInit_asymmetry (env : InitEnv) (name : String)
    (hb : env.busConnectOk = true) :
    clp_app_mgr_async_init initialState env name false =
      ⟨CLP_APP_MGR_FAILURE, (clp_app_mgr_init initialState env name).2, false⟩ ∧
    (clp_app_mgr_init initialState env name).1 = CLP_APP_MGR_SUCCESS ∧
    (clp_app_mgr_init initialState env name).2.init_done = true ∧
    clp_app_mgr_async_init initialState env name true =
      ⟨CLP_APP_MGR_SUCCESS,
        { (clp_app_mgr_init initialState env name).2 with post_init_set := true },
        true⟩ := by
  unfold clp_app_mgr_async_init clp_app_mgr_init initialState
  by_cases hm : env.registryMultiInstance <;> simp_all

/-- C8 (witness): a concrete successful registration: no callback gives
failure without invocation, a callback gives success with invocation. -/
theorem asyncInit_postInit_asymmetry_witness :
    clp_app_mgr_async_init initialState ⟨true, 42, 7, 3, false⟩ "appX" false =
      ⟨CLP_APP_MGR_FAILURE,
        (clp_app_mgr_init initialState ⟨true, 42, 7, 3, false⟩ "appX").2, false⟩ ∧
    (clp_app_mgr_init initialState ⟨true, 42, 7, 3, false⟩ "appX").1 =
      CLP_APP_MGR_SUCCESS ∧
    (clp_app_mgr_init initialState ⟨true, 42, 7, 3, false⟩ "appX").2.init_done = true ∧
    clp_app_mgr_async_init initialState ⟨true, 42, 7, 3, false⟩ "appX" true =
      ⟨CLP_APP_MGR_SUCCESS,
        { (clp_app_mgr_init initialState ⟨true, 42, 7, 3, false⟩ "appX").2 with
            post_init_set := true }, true⟩ :=
  asyncInit_postInit_asymmetry ⟨true, 42, 7, 3, false⟩ "appX" rfl

/-- C9: for a canonical application name (one the registration dot-split
leaves unchanged) that is valid (nonempty, at most NAME_SIZE bytes),
registration derives instanceName = name for a single-instance
application and instanceName = name ++ ":" ++ instanceId for a
multi-instance one; the derived (interface, objectPath, instanceName)
triple equals the pure derivation functions (which carry the same
MAX_SIZE g_strlcat truncation the registration buffers impose) applied to
(name, multi, instanceId), and any two registrations agreeing on
(name, multi, instanceId) produce byte-identical triples. -/
theorem derive_address_deterministic (env : InitEnv) (name : String)
    (_hv : validName name = true)
    (hcanon : (splitFirst (Char.ofNat 46) name).1 = name) :
    (env.registryMultiInstance = false →
      (clp_app_mgr_init initialState env name).2.instance_name = some name) ∧
    (env.registryMultiInstance = true →
      (clp_app_mgr_init initialState env name).2.instance_name =
        some (name ++ ":" ++ toString env.registryInstId)) ∧
    (clp_app_mgr_init initialState env name).2.instance_name =
      some (derived_instance_name name env.registryMultiInstance
        env.registryInstId) ∧
    (clp_app_mgr_init initialState env name).2.dbus_interface =
      derived_interface name env.registryMultiInstance env.registryInstId ∧
    (clp_app_mgr_init initialState env name).2.dbus_object =
      derived_object name env.registryMultiInstance env.registryInstId ∧
    (∀ env2 : InitEnv,
      env2.registryMultiInstance = env.registryMultiInstance →
      env2.registryInstId = env.registryInstId →
      (clp_app_mgr_init initialState env2 name).2.dbus_interface =
        (clp_app_mgr_init initialState env name).2.dbus_interface ∧
      (clp_app_mgr_init initialState env2 name).2.dbus_object =
        (clp_app_mgr_init initialState env name).2.dbus_object ∧
      (clp_app_mgr_init initialState env2 name).2.instance_name =
        (clp_app_mgr_init initialState env name).2.instance_name) := by
  unfold clp_app_mgr_init initialState derived_instance_name
    derived_interface derived_object
  refine ⟨?_, ?_, ?_, ?_, ?_, ?_⟩
  · intro hm
    by_cases hb : env.busConnectOk <;> simp_all
  · intro hm
    by_cases hb : env.busConnectOk <;> simp_all
  · by_cases hm : env.registryMultiInstance <;>
      by_cases hb : env.busConnectOk <;> simp_all
  · by_cases hm : env.registryMultiInstance <;>
      by_cases hb : env.busConnectOk <;> simp_all [hcanon]
  · by_cases hm : env.registryMultiInstance <;>
      by_cases hb : env.busConnectOk <;> simp_all [hcanon]
  · intro env2 he1 he2
    by_cases hm : env.registryMultiInstance <;>
      by_cases hb : env.busConnectOk <;>
      by_cases hb2 : env2.busConnectOk <;> simp_all

/-- C9 (witness): concrete derivations: single-instance "appX" keeps its
name; and two registrations differing only in bus success and pid agree
on the derived triple. -/
theorem derive_address_deterministic_witness :
    ((⟨true, 42, 7, 3, false⟩ : InitEnv).registryMultiInstance = false →
      (clp_app_mgr_init initialState ⟨true, 42, 7, 3, false⟩ "appX").2.instance_name =
        some "appX") ∧
    ((⟨true, 42, 7, 3, false⟩ : InitEnv).registryMultiInstance = true →
      (clp_app_mgr_init initialState ⟨true, 42, 7, 3, false⟩ "appX").2.instance_name =
        some ("appX" ++ ":" ++ toString (3 : Int))) ∧
    (clp_app_mgr_init initialState ⟨true, 42, 7, 3, false⟩ "appX").2.instance_name =
      some (derived_instance_name "appX" false 3) ∧
    (clp_app_mgr_init initialState ⟨true, 42, 7, 3, false⟩ "appX").2.dbus_interface =
      derived_interface "appX" false 3 ∧
    (clp_app_mgr_init initialState ⟨true, 42, 7, 3, false⟩ "appX").2.dbus_object =
      derived_object "appX" false 3 ∧
    (∀ env2 : InitEnv,
      env2.registryMultiInstance = false →
      env2.registryInstId = 3 →
      (clp_app_mgr_init initialState env2 "appX").2.dbus_interface =
        (clp_app_mgr_init initialState ⟨true, 42, 7, 3, false⟩ "appX").2.dbus_interface ∧
      (clp_app_mgr_init initialState env2 "appX").2.dbus_object =
        (clp_app_mgr_init initialState ⟨true, 42, 7, 3, false⟩ "appX").2.dbus_object ∧
      (clp_app_mgr_init initialState env2 "appX").2.instance_name =
        (clp_app_mgr_init initialState ⟨true, 42, 7, 3, false⟩ "appX").2.instance_name) :=
  derive_address_deterministic ⟨true, 42, 7, 3, false⟩ "appX" (by decide) (by decide)

end AppMgr
